import Mathlib

/-!
Verification development for the `hololive-wiki` client (`src/index.js`).

The file shallowly embeds the two components of the client class:
* the identity builder: the constructor's contact normalization
  (`constructor`, lines 122-177), option validation (`#validateOptions`,
  lines 242-260) and User-Agent generation (`#generateHeaders`,
  lines 266-289);
* the request scheduler: `#requestManager`, `#setRequest` (lines 198-207)
  and `#sendRequests` (lines 213-234), embedded both as pure state-update
  functions and as a small-step event trace semantics over the
  single-threaded event loop.
-/

namespace HololiveWiki

/-! ## JavaScript value model

Only the value shapes the constructor actually inspects are modelled:
`typeof`, `Array.isArray`, `=== null`, `??`, string truthiness, and
numeric comparison (where `NaN` compares false against everything).
JS numbers are modelled as `Int`-or-`NaN`; the constructor only compares
them against integer bounds. -/

inductive JSNum where
  | nan : JSNum
  | int (n : Int) : JSNum
deriving DecidableEq, Repr

inductive JSValue where
  | undef : JSValue
  | nul : JSValue
  | bool (b : Bool) : JSValue
  | num (x : JSNum) : JSValue
  | str (s : String) : JSValue
  | arr (elems : List JSValue) : JSValue
deriving Repr

/-- `typeof v` (note `typeof null === "object"` and arrays are `"object"`). -/
def jsTypeof : JSValue → String
  | .undef => "undefined"
  | .nul => "object"
  | .bool _ => "boolean"
  | .num _ => "number"
  | .str _ => "string"
  | .arr _ => "object"

/-- `v < bound` for an integer literal bound: `NaN < k` is `false`;
the validator only evaluates this after the `typeof` check has passed,
so non-number cases are unreachable there. -/
def jsNumLt (v : JSValue) (bound : Int) : Bool :=
  match v with
  | .num (.int n) => decide (n < bound)
  | _ => false

/-- `v > bound` for an integer literal bound: `NaN > k` is `false`. -/
def jsNumGt (v : JSValue) (bound : Int) : Bool :=
  match v with
  | .num (.int n) => decide (bound < n)
  | _ => false

/-- The nullish-coalescing operator `v ?? d`. -/
def jsNullish (v d : JSValue) : JSValue :=
  match v with
  | .undef => d
  | .nul => d
  | v => v

/-- `.length` of a JS string (the repository only validates ASCII-range
strings, where code-unit count and character count agree). -/
def jsStrLength (s : String) : Nat := s.length

/-- Underlying string of a string-typed value (callers guard with `jsTypeof`). -/
def jsStrVal : JSValue → String
  | .str s => s
  | _ => ""

/-! ## Contact normalization (constructor, lines 166-172)

`contact === null ? "" : typeof contact === 'string'
  ? contact.replace(/^\((.+)\)$/, "$1")
  : Array.isArray(contact) && contact.every(e => typeof e === 'string')
    ? contact.join("; ") : contact` -/

/-- Line terminators, which `.` in a JS regular expression (without the
`s` flag) does not match: `\n`, `\r`, U+2028, U+2029. -/
def isLineTerminator (ch : Char) : Bool :=
  ch = '\n' || ch = '\r' || ch = Char.ofNat 0x2028 || ch = Char.ofNat 0x2029

/-- Core of `s.replace(/^\((.+)\)$/, "$1")` over the character list:
if the list is `'(' :: mid ++ [')']` with `mid` nonempty and free of line
terminators, the regex matches the whole string and is replaced by `mid`;
otherwise the string is returned unchanged. -/
def stripParensCore (cs : List Char) : List Char :=
  match cs with
  | '(' :: rest =>
    match rest.getLast? with
    | some ')' =>
      if !(rest.dropLast).isEmpty && (rest.dropLast).all (fun ch => !(isLineTerminator ch)) then
        rest.dropLast
      else '(' :: rest
    | _ => '(' :: rest
  | cs => cs

/-- `s.replace(/^\((.+)\)$/, "$1")`. -/
def stripOuterParens (s : String) : String :=
  ⟨stripParensCore s.data⟩

/-- The constructor's contact normalization (lines 166-172). -/
def normalizeContact : JSValue → JSValue
  | .nul => .str ""
  | .str s => .str (stripOuterParens s)
  | .arr elems =>
    if elems.all (fun e => jsTypeof e == "string") then
      .str (String.intercalate "; " (elems.map jsStrVal))
    else .arr elems
  | v => v

/-! ## Option validation (`#validateOptions`, lines 242-260) -/

/-- The two error classes `#validateOptions` throws. -/
inductive JSError where
  | typeError (msg : String) : JSError
  | rangeError (msg : String) : JSError
deriving DecidableEq, Repr

/-- The client's own (frozen) fields, as assigned by the constructor before
`#validateOptions` runs: `requestTimeout`/`requestInterval` after `??`
defaulting, `name`/`version` copied verbatim, `contact` after
normalization. -/
structure ClientFields where
  requestTimeout : JSValue
  requestInterval : JSValue
  name : JSValue
  version : JSValue
  contact : JSValue

/-- `string.toLowerCase()` (ASCII-faithful, character by character). -/
def jsToLower (s : String) : String := ⟨s.data.map Char.toLower⟩

/-- Does the second list occur as a leading segment of the first list's
start? (helper for substring search). -/
def leadsWith : List Char → List Char → Bool
  | [], _ => true
  | _ :: _, [] => false
  | a :: as, b :: bs => a == b && leadsWith as bs

/-- Does `needle` occur contiguously anywhere in `hay`? -/
def containsSeq (needle : List Char) : List Char → Bool
  | [] => needle.isEmpty
  | b :: bs => leadsWith needle (b :: bs) || containsSeq needle bs

/-- `hay.includes(needle)`. -/
def jsIncludes (hay needle : String) : Bool :=
  containsSeq needle.data hay.data

/-- Split a character list on `'.'` (the version separator). -/
def splitDotAux : List Char → List Char → List (List Char)
  | [], acc => [acc.reverse]
  | '.' :: rest, acc => acc.reverse :: splitDotAux rest []
  | c :: rest, acc => splitDotAux rest (c :: acc)

/-- One dot-separated numeric component of a version: nonempty, all
digits, no leading zero. -/
def semverNumPart (cs : List Char) : Bool :=
  !cs.isEmpty && cs.all Char.isDigit && !(decide (1 < cs.length) && cs.headD '0' == '0')

/-- Modelled from the spec: the `semver` package's `valid` function is an
external dependency whose code is not in the repository; the spec only
requires that the version "must parse as a valid semantic version".
Modelled as the core grammar `major.minor.patch` with numeric,
no-leading-zero components (prerelease/build suffixes are not needed by
any claim). -/
def semverValid (s : String) : Bool :=
  match splitDotAux s.data [] with
  | [a, b, c] => semverNumPart a && semverNumPart b && semverNumPart c
  | _ => false

/-- `#validateOptions` (lines 242-260): the checks in source order, each
throwing `TypeError` on a kind mismatch and `RangeError` on an
out-of-bounds / malformed value. -/
def validateOptions (f : ClientFields) : Except JSError Unit :=
  if jsTypeof f.requestTimeout != "number" then
    .error (.typeError ("requestTimeout: Expected number; recieved " ++ jsTypeof f.requestTimeout))
  else if jsNumLt f.requestTimeout 500 then
    .error (.rangeError "requestTimeout: Minimum is 500")
  else if jsNumGt f.requestTimeout 30000 then
    .error (.rangeError "requestTimeout: Maximum is 30000")
  else if jsTypeof f.requestInterval != "number" then
    .error (.typeError ("requestInterval: Expected number; recieved " ++ jsTypeof f.requestInterval))
  else if jsNumLt f.requestInterval 500 then
    .error (.rangeError "requestInterval: Minimum is 500")
  else if jsNumGt f.requestInterval 5000 then
    .error (.rangeError "requestInterval: Maximum is 5000")
  else if jsTypeof f.name != "string" then
    .error (.typeError ("userAgent.name: Expected string; recieved " ++ jsTypeof f.name))
  else if jsStrLength (jsStrVal f.name) > 256 then
    .error (.rangeError "userAgent.name: Maximum length is 256")
  else if !(jsIncludes (jsToLower (jsStrVal f.name)) "bot") then
    .error (.rangeError "userAgent.name: Name must include the phrase 'bot'")
  else if jsTypeof f.version != "string" then
    .error (.typeError ("userAgent.version: Expected string; recieved " ++ jsTypeof f.version))
  else if !(semverValid (jsStrVal f.version)) then
    .error (.rangeError "userAgent.version: Version must be a valid semver string")
  else if jsTypeof f.contact != "string" then
    .error (.typeError ("userAgent.contact: Expected string|string[]|null; recieved " ++ jsTypeof f.contact))
  else if jsStrLength (jsStrVal f.contact) > 256 then
    .error (.rangeError "userAgent.contact: Maximum length is 256")
  else
    .ok ()

/-! ## User-Agent generation (`#generateHeaders`, lines 266-289) -/

/-- The template
``${name}/${version} ${contact ? `(${contact}) ` : ""}${pkg.name}/${pkg.version}``
(line 272). The conditional is JS string truthiness: the parenthesized
contact segment is present exactly when the normalized contact is
nonempty. `pkgName`/`pkgVersion` come from the library's own
`package.json`, which is outside `src/`, so they stay parameters. -/
def generateUserAgent (name version contact pkgName pkgVersion : String) : String :=
  name ++ "/" ++ version ++ " " ++
    (if contact == "" then "" else "(" ++ contact ++ ") ") ++
    pkgName ++ "/" ++ pkgVersion

/-! ## Constructor (lines 122-177) -/

/-- Modelled from the spec: the library's own `package.json` is not under
`src/`; the spec says the defaults are "derived from the host library's
own package metadata (library name + \" bot for Node\", library version,
library's repository URL and maintainer contact)". -/
structure PkgData where
  name : String
  version : String
  repository : String
  authorContact : String

/-- The options object for the `userAgent` configuration key. An absent
`contact` property reads as `undefined`. -/
structure UAOptions where
  name : JSValue
  version : JSValue
  contact : JSValue

/-- Modelled from the spec: the constructor's default `userAgent`
parameter (lines 125-129), built from the host package metadata. -/
def defaultUserAgent (pkg : PkgData) : UAOptions :=
  { name := .str (pkg.name ++ " bot for Node")
    version := .str pkg.version
    contact := .arr [.str ("https://github.com/" ++ pkg.repository), .str pkg.authorContact] }

/-- The constructor's options object: each key `undefined` when absent,
`userAgent := none` when the whole key is absent (so its default object
applies). -/
structure HWOptions where
  requestTimeout : JSValue := .undef
  requestInterval : JSValue := .undef
  userAgent : Option UAOptions := none

/-- The constructor (lines 122-177): apply `??` defaults, copy
`name`/`version`, normalize `contact`, then run `#validateOptions`.
On success the client is frozen with exactly these fields; a thrown
error aborts construction. -/
def constructClient (pkg : PkgData) (opts : HWOptions) : Except JSError ClientFields :=
  let ua := opts.userAgent.getD (defaultUserAgent pkg)
  let fields : ClientFields :=
    { requestTimeout := jsNullish opts.requestTimeout (.num (.int 10000))
      requestInterval := jsNullish opts.requestInterval (.num (.int 1000))
      name := ua.name
      version := ua.version
      contact := normalizeContact ua.contact }
  match validateOptions fields with
  | .error e => .error e
  | .ok _ => .ok fields

/-! ## Request scheduler (`#requestManager`, `#setRequest`, `#sendRequests`)

The scheduler's state-update functions are embedded directly, and on top
of them a small-step event semantics of the single-threaded event loop:
`submit` (a caller invoking `#setRequest`), the pending-dispatch timer
firing (running `#sendRequests`), the per-call cancellation timer firing
(running `controller.abort`), and the transport promise settling (running
the `.finally(() => clearTimeout(timeout))` handler). Timestamps are
`Int` milliseconds (`Date.now()`). -/

/-- A validated client's timing configuration (`requestTimeout`,
`requestInterval`), as plain integers once validation has passed. -/
structure SchedClient where
  requestTimeout : Int
  requestInterval : Int
deriving DecidableEq, Repr

/-- A `setTimeout` handle held in `#requestManager.timeout`: the absolute
time it is due to fire, and whether it has already fired. A fired
handle is still a non-null (truthy) object in JS, which is why `fired`
is tracked separately from the `Option`. -/
structure TimerHandle where
  fireAt : Int
  fired : Bool
deriving DecidableEq, Repr

/-- `#requestManager` (lines 187-191): `queue`, `nextReq`, `timeout`.
Request descriptors are abstracted as `Nat` identifiers (`#sendRequests`
never reads their contents). -/
structure RequestManager where
  queue : List Nat
  nextReq : Int
  timeout : Option TimerHandle
deriving DecidableEq, Repr

/-- The initial `#requestManager` value: `{ queue: [], nextReq: 0, timeout: null }`. -/
def initManager : RequestManager :=
  { queue := [], nextReq := 0, timeout := none }

/-- `date-fns` `isBefore(a, b)`: is instant `a` strictly before `b`. -/
def isBefore (a b : Int) : Bool := decide (a < b)

/-- `#setRequest` (lines 198-207): push the descriptor, and only if
`#requestManager.timeout` is null arm a timer whose delay is
`isBefore(nextReq, now) ? requestInterval : nextReq - now`. -/
def setRequest (c : SchedClient) (now : Int) (data : Nat) (m : RequestManager) : RequestManager :=
  let m1 := { m with queue := m.queue ++ [data] }
  match m1.timeout with
  | some _ => m1
  | none =>
    { m1 with
      timeout := some
        { fireAt := now + (if isBefore m1.nextReq now then c.requestInterval else m1.nextReq - now)
          fired := false } }

/-- One outgoing transport call as issued by `#sendRequests`: the fixed
query URL, its start time, and the absolute fire time of its cancellation
timer (`setTimeout(controller.abort, this.requestTimeout)`). -/
structure TransportCall where
  startedAt : Int
  url : String
  cancelFireAt : Int
deriving DecidableEq, Repr

/-- The URL `#sendRequests` fetches:
`https://hololive.wiki/w/api.php?` + `new URLSearchParams({action: 'query', format: 'json'})`.
It does not depend on the queue contents. -/
def apiUrl : String :=
  "https://hololive.wiki/w/api.php?action=query&format=json"

/-- The body of `#sendRequests` (lines 213-234) as a state transformer:
it first sets `nextReq = Date.now() + this.requestInterval`, then starts
the cancellation timer and issues the fetch. It touches neither
`#requestManager.queue` nor `#requestManager.timeout`. -/
def sendRequests (c : SchedClient) (now : Int) (m : RequestManager) :
    RequestManager × TransportCall :=
  ({ m with nextReq := now + c.requestInterval },
   { startedAt := now, url := apiUrl, cancelFireAt := now + c.requestTimeout })

/-- The in-flight transport call's runtime state: the cancellation timer
(`none` once cleared by `clearTimeout` or once it has fired), whether
`controller.abort` has run, and whether the fetch promise has settled
(fulfilled or rejected, including rejection caused by abort). -/
structure FlightState where
  startedAt : Int
  cancelTimer : Option Int
  aborted : Bool
  settled : Bool
deriving DecidableEq, Repr

/-- The whole event-loop state of one client: current clock, the
`#requestManager` record, the in-flight call (if any), and the history of
issued transport calls. -/
structure SchedState where
  now : Int
  mgr : RequestManager
  flight : Option FlightState
  calls : List TransportCall
deriving DecidableEq, Repr

/-- The state of a freshly constructed client. -/
def initState : SchedState :=
  { now := 0, mgr := initManager, flight := none, calls := [] }

/-- Events of the single-threaded event loop, each stamped with the
`Date.now()` at which it runs. -/
inductive Event where
  | submit (t : Int) (data : Nat) : Event
  | dispatchFire (t : Int) : Event
  | cancelFire (t : Int) : Event
  | settle (t : Int) : Event
deriving DecidableEq, Repr

/-- One step of the event loop; `none` when the event is not enabled
(time would run backwards, the named timer is not pending, or there is
no unsettled call).

* `submit` runs `#setRequest`;
* `dispatchFire` is the pending-dispatch timer firing (no earlier than
  its delay): it marks the handle fired — `#sendRequests` never resets
  `#requestManager.timeout` to null — runs the `#sendRequests` body, and
  creates the in-flight call with its cancellation timer armed for
  `requestTimeout`;
* `cancelFire` is the cancellation timer firing while still pending:
  `controller.abort()` runs, aborting the fetch;
* `settle` is the fetch promise settling by any means; the `.finally`
  handler runs `clearTimeout(timeout)`, disarming the cancellation
  timer. -/
def stepOk (c : SchedClient) (s : SchedState) : Event → Option SchedState
  | .submit t data =>
    if s.now ≤ t then
      some { s with now := t, mgr := setRequest c t data s.mgr }
    else none
  | .dispatchFire t =>
    match s.mgr.timeout with
    | some h =>
      if s.now ≤ t ∧ h.fireAt ≤ t ∧ h.fired = false then
        let upd := sendRequests c t { s.mgr with timeout := some { h with fired := true } }
        some { now := t
               mgr := upd.1
               flight := some
                 { startedAt := t, cancelTimer := some (t + c.requestTimeout)
                   aborted := false, settled := false }
               calls := s.calls ++ [upd.2] }
      else none
    | none => none
  | .cancelFire t =>
    match s.flight with
    | some f =>
      match f.cancelTimer with
      | some ct =>
        if s.now ≤ t ∧ ct ≤ t then
          some { s with now := t, flight := some { f with cancelTimer := none, aborted := true } }
        else none
      | none => none
    | none => none
  | .settle t =>
    match s.flight with
    | some f =>
      if s.now ≤ t ∧ f.settled = false then
        some { s with now := t, flight := some { f with settled := true, cancelTimer := none } }
      else none
    | none => none

/-- Run a list of events from a state, failing if any event is not
enabled. -/
def run (c : SchedClient) (s : SchedState) : List Event → Option SchedState
  | [] => some s
  | e :: es =>
    match stepOk c s e with
    | some s2 => run c s2 es
    | none => none

/-- A state the event loop can reach from a fresh client. -/
def Reachable (c : SchedClient) (s : SchedState) : Prop :=
  ∃ evs, run c initState evs = some s

/-! ## Spec-side definitions used for comparison -/

/-- The spec's submit-delay formula, following its words: the delay
"equals nextAllowedAt - now when nextAllowedAt is in the future, and
equals requestInterval otherwise". -/
def specSubmitDelay (interval now nextAllowedAt : Int) : Int :=
  if now < nextAllowedAt then nextAllowedAt - now else interval

/-- The spec's identity-string format, following its words: the output is
`"{name}/{version} ({contact}) {hostLibraryName}/{hostLibraryVersion}"`,
"omitting the parenthesized contact segment entirely when contact is
empty". -/
def specUserAgentString (name version contact pkgName pkgVersion : String) : String :=
  if contact = "" then
    name ++ "/" ++ version ++ " " ++ pkgName ++ "/" ++ pkgVersion
  else
    name ++ "/" ++ version ++ " " ++ ("(" ++ contact ++ ") ") ++ pkgName ++ "/" ++ pkgVersion

/-- A fully valid field assignment (the constructor's defaults with the
name `"abot"`, version `"1.0.0"` and empty contact); used as the base
point when varying one field at a time. -/
def okFields : ClientFields :=
  { requestTimeout := .num (.int 10000)
    requestInterval := .num (.int 1000)
    name := .str "abot"
    version := .str "1.0.0"
    contact := .str "" }

/-- The cancellation-guard safety property of a loop state: once the
in-flight call has settled, its cancellation timer is no longer pending
(so it cannot fire afterward). -/
def cancelGuardCleared (s : SchedState) : Bool :=
  match s.flight with
  | none => true
  | some f => !f.settled || f.cancelTimer.isNone

/-! Concrete loop states of the client `⟨requestTimeout 10000, requestInterval 1000⟩`,
used to instantiate the scheduler theorems: one armed state and the three
states along its dispatch/abort/settle trace. -/

/-- Armed: one descriptor queued, dispatch timer due at t=1050. -/
def wsArmed : SchedState :=
  { now := 50, mgr := { queue := [1], nextReq := 0, timeout := some ⟨1050, false⟩ },
    flight := none, calls := [] }

/-- After the dispatch timer fired at t=1050: watermark 2050, call in
flight with its cancellation timer due at t=11050. -/
def wsDispatched : SchedState :=
  { now := 1050, mgr := { queue := [1], nextReq := 2050, timeout := some ⟨1050, true⟩ },
    flight := some { startedAt := 1050, cancelTimer := some 11050,
                     aborted := false, settled := false },
    calls := [⟨1050, apiUrl, 11050⟩] }

/-- After the cancellation timer fired at t=11050: call aborted, timer no
longer pending. -/
def wsAborted : SchedState :=
  { now := 11050, mgr := { queue := [1], nextReq := 2050, timeout := some ⟨1050, true⟩ },
    flight := some { startedAt := 1050, cancelTimer := none,
                     aborted := true, settled := false },
    calls := [⟨1050, apiUrl, 11050⟩] }

/-- After the aborted call settled at t=11060. -/
def wsSettled : SchedState :=
  { now := 11060, mgr := { queue := [1], nextReq := 2050, timeout := some ⟨1050, true⟩ },
    flight := some { startedAt := 1050, cancelTimer := none,
                     aborted := true, settled := true },
    calls := [⟨1050, apiUrl, 11050⟩] }

/-! ## Theorems -/

/-- Claim C1 evaluated on the code: in the trace "submit at t=100, the
dispatch timer fires at t=1100, the transport call settles at t=1200,
submit again at t=5000", the settled call does NOT release
`#requestManager.timeout` — the field still holds the fired handle — so
the second submit only appends its descriptor and no new dispatch timer
is ever armed (the final state holds no unfired timer). -/
theorem timer_handle_never_released :
    run ⟨10000, 1000⟩ initState
      [.submit 100 1, .dispatchFire 1100, .settle 1200, .submit 5000 2] =
    some { now := 5000
           mgr := { queue := [1, 2], nextReq := 2100, timeout := some ⟨1100, true⟩ }
           flight := some { startedAt := 1100, cancelTimer := none, aborted := false, settled := true }
           calls := [⟨1100, apiUrl, 11100⟩] } := by
  decide

/-- Claim C2: a `#setRequest` call that finds `#requestManager.timeout`
non-null only appends the descriptor to the queue; the state is otherwise
unchanged, so no second timer is ever armed. -/
theorem submit_single_flight (c : SchedClient) (now : Int) (data : Nat)
    (m : RequestManager) (h : TimerHandle) (hm : m.timeout = some h) :
    setRequest c now data m = { m with queue := m.queue ++ [data] } := by
  simp [setRequest, hm]

/-- Witness for `submit_single_flight` at a concrete armed state. -/
theorem submit_single_flight_witness :
    (({ queue := [3], nextReq := 0, timeout := some ⟨42, false⟩ } : RequestManager).timeout
        = some ⟨42, false⟩) ∧
    setRequest ⟨10000, 1000⟩ 5 9 { queue := [3], nextReq := 0, timeout := some ⟨42, false⟩ } =
      { queue := [3, 9], nextReq := 0, timeout := some ⟨42, false⟩ } :=
  ⟨rfl, submit_single_flight ⟨10000, 1000⟩ 5 9 _ ⟨42, false⟩ rfl⟩

/-- Claim C4 evaluated on the code: `#sendRequests` leaves
`#requestManager.queue` (and the timer field) untouched and issues a call
whose URL is the fixed `action=query&format=json` query, independent of
the accumulated descriptors — the queue is not flushed into the call and
is not cleared. -/
theorem send_requests_fixed_query (c : SchedClient) (now : Int) (m : RequestManager) :
    ((sendRequests c now m).1).queue = m.queue ∧
    ((sendRequests c now m).2).url = apiUrl ∧
    ((sendRequests c now m).1).timeout = m.timeout :=
  ⟨rfl, rfl, rfl⟩

/-- Claim C10: constructing a client with `requestTimeout = NaN` (or
`requestInterval = NaN`) succeeds: `typeof NaN` is `"number"` and `NaN`
satisfies neither `< min` nor `> max`, so validation passes and the
frozen client carries the `NaN` timing value. -/
theorem nan_timing_accepted (pkg : PkgData) :
    constructClient pkg
      { requestTimeout := .num .nan
        requestInterval := .undef
        userAgent := some ⟨.str "abot", .str "1.0.0", .nul⟩ } =
      .ok { requestTimeout := .num .nan
            requestInterval := .num (.int 1000)
            name := .str "abot"
            version := .str "1.0.0"
            contact := .str "" } ∧
    constructClient pkg
      { requestTimeout := .undef
        requestInterval := .num .nan
        userAgent := some ⟨.str "abot", .str "1.0.0", .nul⟩ } =
      .ok { requestTimeout := .num (.int 10000)
            requestInterval := .num .nan
            name := .str "abot"
            version := .str "1.0.0"
            contact := .str "" } :=
  ⟨rfl, rfl⟩

/-- Claim C6 fails on the code at the boundary `nextAllowedAt = now`:
with watermark 1000 and current time 1000, the claim's formula
(`nextAllowedAt` not in the future, hence delay `requestInterval = 1000`,
firing at 2000) disagrees with `#setRequest`, which computes
`isBefore(1000, 1000) = false` and arms the timer for
`nextReq - now = 0`, firing at 1000. -/
theorem submit_delay_cex :
    (setRequest ⟨10000, 1000⟩ 1000 0 { queue := [], nextReq := 1000, timeout := none }).timeout =
      some ⟨1000, false⟩ ∧
    specSubmitDelay 1000 1000 1000 = 1000 ∧
    (1000 : Int) ≠ 1000 + specSubmitDelay 1000 1000 1000 := by
  refine ⟨by decide, by decide, by decide⟩

/-- Claim C6 amended: for a submit that finds no timer armed, the timer
fires at `nextAllowedAt` itself whenever `nextAllowedAt` has not yet
passed (`now ≤ nextAllowedAt`, a delay of `nextAllowedAt - now`, which is
zero at the boundary `nextAllowedAt = now`), and fires after a full
`requestInterval` exactly when `nextAllowedAt` is strictly in the past;
in particular on a fresh client (watermark 0) at any positive current
time the first dispatch is delayed by a full `requestInterval`, not fired
immediately. -/
theorem submit_delay_amended (c : SchedClient)
    (ma : RequestManager) (nowA : Int) (da : Nat)
    (mb : RequestManager) (nowB : Int) (db : Nat)
    (mc : RequestManager) (nowC : Int) (dc : Nat)
    (haT : ma.timeout = none) (ha : nowA ≤ ma.nextReq)
    (hbT : mb.timeout = none) (hb : mb.nextReq < nowB)
    (hcT : mc.timeout = none) (hc : mc.nextReq = 0) (hc' : 0 < nowC) :
    (setRequest c nowA da ma).timeout = some ⟨ma.nextReq, false⟩ ∧
    (setRequest c nowB db mb).timeout = some ⟨nowB + c.requestInterval, false⟩ ∧
    (setRequest c nowC dc mc).timeout = some ⟨nowC + c.requestInterval, false⟩ := by
  refine ⟨?_, ?_, ?_⟩
  · simp only [setRequest, haT, isBefore]
    have hnot : ¬(ma.nextReq < nowA) := not_lt.mpr ha
    simp [hnot]
  · simp only [setRequest, hbT, isBefore]
    simp [hb]
  · simp only [setRequest, hcT, isBefore]
    have : mc.nextReq < nowC := by omega
    simp [this]

/-- Witness for `submit_delay_amended`: watermark ahead (fires exactly at
the watermark), watermark passed (fires after a full interval), and a
fresh client (fires after a full interval). -/
theorem submit_delay_amended_witness :
    (({ queue := [], nextReq := 2100, timeout := none } : RequestManager).timeout = none ∧
      (1500 : Int) ≤ 2100 ∧
      ({ queue := [], nextReq := 90, timeout := none } : RequestManager).timeout = none ∧
      (90 : Int) < 400 ∧
      ({ queue := [], nextReq := 0, timeout := none } : RequestManager).timeout = none ∧
      ({ queue := [], nextReq := 0, timeout := none } : RequestManager).nextReq = 0 ∧
      (0 : Int) < 700) ∧
    ((setRequest ⟨10000, 1000⟩ 1500 1 { queue := [], nextReq := 2100, timeout := none }).timeout =
        some ⟨2100, false⟩ ∧
      (setRequest ⟨10000, 1000⟩ 400 2 { queue := [], nextReq := 90, timeout := none }).timeout =
        some ⟨1400, false⟩ ∧
      (setRequest ⟨10000, 1000⟩ 700 3 { queue := [], nextReq := 0, timeout := none }).timeout =
        some ⟨1700, false⟩) :=
  ⟨⟨rfl, by decide, rfl, by decide, rfl, rfl, by decide⟩,
    submit_delay_amended ⟨10000, 1000⟩
      { queue := [], nextReq := 2100, timeout := none } 1500 1
      { queue := [], nextReq := 90, timeout := none } 400 2
      { queue := [], nextReq := 0, timeout := none } 700 3
      rfl (by decide) rfl (by decide) rfl rfl (by decide)⟩

/-- Claim C3: when the dispatch timer fires, `#sendRequests` sets the
watermark `nextReq = now + requestInterval` as its first action, before
the transport call (whose start time is `now`, so the watermark never
depends on the call's duration); any submit that then arms a timer
against that watermark arms it to fire no earlier than the watermark —
i.e. no earlier than the previous dispatch start plus `requestInterval` —
and the firing step itself never runs before the armed fire time. -/
theorem dispatch_spacing (c : SchedClient) (m : RequestManager) (now : Int)
    (m2 : RequestManager) (u : Int) (d : Nat)
    (s : SchedState) (t : Int) (s2 : SchedState) (h : TimerHandle)
    (hpos : 0 < c.requestInterval)
    (hnone : m2.timeout = none)
    (hwm : m2.nextReq = now + c.requestInterval)
    (hts : s.mgr.timeout = some h)
    (hstep : stepOk c s (.dispatchFire t) = some s2) :
    ((sendRequests c now m).1).nextReq = now + c.requestInterval ∧
    ((sendRequests c now m).2).startedAt = now ∧
    ((setRequest c u d m2).timeout.all
        (fun h2 => decide (now + c.requestInterval ≤ h2.fireAt))) = true ∧
    h.fireAt ≤ t ∧
    s2.mgr.nextReq = t + c.requestInterval := by
  refine ⟨rfl, rfl, ?_, ?_, ?_⟩
  · simp only [setRequest, hnone, Option.all]
    rw [hwm]
    by_cases hlt : now + c.requestInterval < u
    · simp [isBefore, hlt]
      omega
    · simp [isBefore, hlt]
  · simp only [stepOk, hts] at hstep
    split at hstep
    · rename_i hguard
      exact hguard.2.1
    · exact absurd hstep (by simp)
  · simp only [stepOk, hts] at hstep
    split at hstep
    · cases hstep
      rfl
    · exact absurd hstep (by simp)

/-- Witness for `dispatch_spacing`: with `requestInterval = 1000`, a
dispatch at t=1100 moves the watermark to 2100; a submit at t=1500
against that watermark arms the next timer for t=2100, a full interval
after the dispatch start. -/
theorem dispatch_spacing_witness :
    ((0 : Int) < 1000 ∧
      ({ queue := [1], nextReq := 2100, timeout := none } : RequestManager).timeout = none ∧
      ({ queue := [1], nextReq := 2100, timeout := none } : RequestManager).nextReq = 1100 + 1000 ∧
      ({ now := 100, mgr := { queue := [1], nextReq := 0, timeout := some ⟨1100, false⟩ },
          flight := none, calls := [] } : SchedState).mgr.timeout = some ⟨1100, false⟩ ∧
      stepOk ⟨10000, 1000⟩
          { now := 100, mgr := { queue := [1], nextReq := 0, timeout := some ⟨1100, false⟩ },
            flight := none, calls := [] } (.dispatchFire 1100) =
        some { now := 1100
               mgr := { queue := [1], nextReq := 2100, timeout := some ⟨1100, true⟩ }
               flight := some { startedAt := 1100, cancelTimer := some 11100,
                                aborted := false, settled := false }
               calls := [⟨1100, apiUrl, 11100⟩] }) ∧
    (((sendRequests ⟨10000, 1000⟩ 1100
          { queue := [1], nextReq := 0, timeout := some ⟨1100, true⟩ }).1).nextReq = 1100 + 1000 ∧
      ((sendRequests ⟨10000, 1000⟩ 1100
          { queue := [1], nextReq := 0, timeout := some ⟨1100, true⟩ }).2).startedAt = 1100 ∧
      ((setRequest ⟨10000, 1000⟩ 1500 7
            { queue := [1], nextReq := 2100, timeout := none }).timeout.all
          (fun h2 => decide (1100 + 1000 ≤ h2.fireAt))) = true ∧
      (⟨1100, false⟩ : TimerHandle).fireAt ≤ 1100 ∧
      ({ now := 1100
         mgr := { queue := [1], nextReq := 2100, timeout := some ⟨1100, true⟩ }
         flight := some { startedAt := 1100, cancelTimer := some 11100,
                          aborted := false, settled := false }
         calls := [⟨1100, apiUrl, 11100⟩] } : SchedState).mgr.nextReq = 1100 + 1000) :=
  ⟨⟨by decide, rfl, by decide, rfl, by decide⟩,
    dispatch_spacing ⟨10000, 1000⟩
      { queue := [1], nextReq := 0, timeout := some ⟨1100, true⟩ } 1100
      { queue := [1], nextReq := 2100, timeout := none } 1500 7
      { now := 100, mgr := { queue := [1], nextReq := 0, timeout := some ⟨1100, false⟩ },
        flight := none, calls := [] } 1100 _ ⟨1100, false⟩
      (by decide) rfl (by decide) rfl (by decide)⟩

/-- One event-loop step preserves the cancellation-guard property. -/
theorem cancelGuard_step (c : SchedClient) (s s2 : SchedState) (e : Event)
    (hstep : stepOk c s e = some s2) (hinv : cancelGuardCleared s = true) :
    cancelGuardCleared s2 = true := by
  cases e with
  | submit t data =>
    simp only [stepOk] at hstep
    by_cases hg : s.now ≤ t
    · rw [if_pos hg] at hstep
      cases hstep
      exact hinv
    · rw [if_neg hg] at hstep
      exact absurd hstep (by simp)
  | dispatchFire t =>
    cases hmt : s.mgr.timeout with
    | none =>
      simp only [stepOk, hmt] at hstep
      exact absurd hstep (by simp)
    | some h =>
      simp only [stepOk, hmt] at hstep
      by_cases hg : s.now ≤ t ∧ h.fireAt ≤ t ∧ h.fired = false
      · rw [if_pos hg] at hstep
        cases hstep
        simp [cancelGuardCleared]
      · rw [if_neg hg] at hstep
        exact absurd hstep (by simp)
  | cancelFire t =>
    cases hf : s.flight with
    | none =>
      simp only [stepOk, hf] at hstep
      exact absurd hstep (by simp)
    | some f =>
      cases hct : f.cancelTimer with
      | none =>
        simp only [stepOk, hf, hct] at hstep
        exact absurd hstep (by simp)
      | some ct =>
        simp only [stepOk, hf, hct] at hstep
        by_cases hg : s.now ≤ t ∧ ct ≤ t
        · rw [if_pos hg] at hstep
          cases hstep
          simp [cancelGuardCleared]
        · rw [if_neg hg] at hstep
          exact absurd hstep (by simp)
  | settle t =>
    cases hf : s.flight with
    | none =>
      simp only [stepOk, hf] at hstep
      exact absurd hstep (by simp)
    | some f =>
      simp only [stepOk, hf] at hstep
      by_cases hg : s.now ≤ t ∧ f.settled = false
      · rw [if_pos hg] at hstep
        cases hstep
        simp [cancelGuardCleared]
      · rw [if_neg hg] at hstep
        exact absurd hstep (by simp)

/-- A whole event run preserves the cancellation-guard property. -/
theorem cancelGuard_run (c : SchedClient) (evs : List Event) (s s2 : SchedState)
    (hrun : run c s evs = some s2) (hinv : cancelGuardCleared s = true) :
    cancelGuardCleared s2 = true := by
  induction evs generalizing s with
  | nil =>
    simp only [run, Option.some.injEq] at hrun
    exact hrun ▸ hinv
  | cons e es ih =>
    simp only [run] at hrun
    cases hst : stepOk c s e with
    | none =>
      rw [hst] at hrun
      exact absurd hrun (by simp)
    | some s3 =>
      rw [hst] at hrun
      exact ih s3 hrun (cancelGuard_step c s s3 e hst hinv)

/-- Claim C5: every dispatch arms a cancellation timer due a full
`requestTimeout` after the call start; while that timer is still pending
its firing runs `controller.abort` (aborting the in-flight call); the
settling of the call by any means runs the `finally` handler, which
disarms the cancellation timer; and in every reachable state a settled
call has no pending cancellation timer left, so the guard can never fire
after settlement. -/
theorem cancellation_guard (c : SchedClient)
    (sA : SchedState) (tA : Int) (sA' : SchedState)
    (sB : SchedState) (fB : FlightState) (tB : Int) (sB' : SchedState)
    (sC : SchedState) (fC : FlightState) (tC : Int) (sC' : SchedState)
    (evs : List Event) (s : SchedState)
    (hA : stepOk c sA (.dispatchFire tA) = some sA')
    (hBf : sB.flight = some fB)
    (hB : stepOk c sB (.cancelFire tB) = some sB')
    (hCf : sC.flight = some fC)
    (hC : stepOk c sC (.settle tC) = some sC')
    (hrun : run c initState evs = some s) :
    sA'.flight = some { startedAt := tA, cancelTimer := some (tA + c.requestTimeout),
                        aborted := false, settled := false } ∧
    sB'.flight = some { fB with cancelTimer := none, aborted := true } ∧
    sC'.flight = some { fC with settled := true, cancelTimer := none } ∧
    cancelGuardCleared s = true := by
  refine ⟨?_, ?_, ?_, cancelGuard_run c evs initState s hrun rfl⟩
  · cases hmt : sA.mgr.timeout with
    | none =>
      simp only [stepOk, hmt] at hA
      exact absurd hA (by simp)
    | some h =>
      simp only [stepOk, hmt] at hA
      by_cases hg : sA.now ≤ tA ∧ h.fireAt ≤ tA ∧ h.fired = false
      · rw [if_pos hg] at hA
        cases hA
        rfl
      · rw [if_neg hg] at hA
        exact absurd hA (by simp)
  · cases hct : fB.cancelTimer with
    | none =>
      simp only [stepOk, hBf, hct] at hB
      exact absurd hB (by simp)
    | some ct =>
      simp only [stepOk, hBf, hct] at hB
      by_cases hg : sB.now ≤ tB ∧ ct ≤ tB
      · rw [if_pos hg] at hB
        cases hB
        rfl
      · rw [if_neg hg] at hB
        exact absurd hB (by simp)
  · simp only [stepOk, hCf] at hC
    by_cases hg : sC.now ≤ tC ∧ fC.settled = false
    · rw [if_pos hg] at hC
      cases hC
      rfl
    · rw [if_neg hg] at hC
      exact absurd hC (by simp)

/-- Witness for `cancellation_guard` along the concrete trace
`wsArmed → wsDispatched → wsAborted → wsSettled`: the dispatch at t=1050
arms the cancellation timer for t=11050 (`requestTimeout = 10000`), the
timer fires and aborts the call, the aborted call settles at t=11060
with the timer disarmed, and the full trace ends with the guard
cleared. -/
theorem cancellation_guard_witness :
    (stepOk ⟨10000, 1000⟩ wsArmed (.dispatchFire 1050) = some wsDispatched ∧
      wsDispatched.flight =
        some { startedAt := 1050, cancelTimer := some 11050, aborted := false, settled := false } ∧
      stepOk ⟨10000, 1000⟩ wsDispatched (.cancelFire 11050) = some wsAborted ∧
      wsAborted.flight =
        some { startedAt := 1050, cancelTimer := none, aborted := true, settled := false } ∧
      stepOk ⟨10000, 1000⟩ wsAborted (.settle 11060) = some wsSettled ∧
      run ⟨10000, 1000⟩ initState
          [.submit 50 1, .dispatchFire 1050, .cancelFire 11050, .settle 11060] =
        some wsSettled) ∧
    (wsDispatched.flight =
        some { startedAt := 1050, cancelTimer := some (1050 + 10000),
               aborted := false, settled := false } ∧
      wsAborted.flight =
        some { startedAt := 1050, cancelTimer := none, aborted := true, settled := false } ∧
      wsSettled.flight =
        some { startedAt := 1050, cancelTimer := none, aborted := true, settled := true } ∧
      cancelGuardCleared wsSettled = true) :=
  ⟨⟨by decide, by decide, by decide, by decide, by decide, by decide⟩,
    cancellation_guard ⟨10000, 1000⟩
      wsArmed 1050 wsDispatched
      wsDispatched ⟨1050, some 11050, false, false⟩ 11050 wsAborted
      wsAborted ⟨1050, none, true, false⟩ 11060 wsSettled
      [.submit 50 1, .dispatchFire 1050, .cancelFire 11050, .settle 11060] wsSettled
      (by decide) (by decide) (by decide) (by decide) (by decide) (by decide)⟩

/-- The regex replacement strips one wrapping parenthesis pair whenever
the wrapped text is nonempty and free of line terminators. -/
theorem stripParensCore_wrap (cs : List Char) (hd : cs ≠ [])
    (hlt : cs.all (fun ch => !(isLineTerminator ch)) = true) :
    stripParensCore ('(' :: (cs ++ [')'])) = cs := by
  simp only [stripParensCore, List.getLast?_concat, List.dropLast_concat]
  simp [List.isEmpty_iff, hd, hlt]

/-- Claim C7 fails on the code in two places. An absent `contact`
(`undefined`) is not normalized to the empty string: the normalization
ternary falls through and leaves it `undefined`, which `#validateOptions`
then rejects with a `TypeError` — so a client with absent contact is
never constructed at all. And the strip regex `/^\((.+)\)$/` does not
match when a line terminator sits between the parentheses (JS `.`
excludes line terminators), so `"(a\nb)"` — a single string wrapped in
one parenthesis pair spanning the whole string — is left unchanged
rather than stripped. -/
theorem contact_normalization_cex :
    normalizeContact .undef = .undef ∧
    validateOptions
        { requestTimeout := .num (.int 10000), requestInterval := .num (.int 1000),
          name := .str "abot", version := .str "1.0.0",
          contact := normalizeContact .undef } =
      .error (.typeError "userAgent.contact: Expected string|string[]|null; recieved undefined") ∧
    stripOuterParens "(a\nb)" = "(a\nb)" ∧
    ("(a\nb)" : String) ≠ "a\nb" :=
  ⟨rfl, rfl, rfl, by decide⟩

/-- Claim C7 amended: an array of strings is joined with `"; "`; a single
string wrapped in one outer parenthesis pair spanning the whole string
has that pair stripped exactly once, provided the wrapped text is
nonempty and contains no line terminator; a null contact normalizes to
the empty string; an absent (`undefined`) contact is not normalized — it
passes through unchanged and is rejected by validation with a type
error. -/
theorem contact_normalization_amended (xs : List String) (s : String)
    (hne : s ≠ "") (hlt : s.data.all (fun ch => !(isLineTerminator ch)) = true) :
    normalizeContact (.arr (xs.map .str)) = .str (String.intercalate "; " xs) ∧
    stripOuterParens ("(" ++ s ++ ")") = s ∧
    normalizeContact .nul = .str "" ∧
    normalizeContact .undef = .undef := by
  refine ⟨?_, ?_, rfl, rfl⟩
  · have hid : jsStrVal ∘ JSValue.str = id := rfl
    simp [normalizeContact, List.all_map, Function.comp, jsTypeof, List.map_map, hid]
  · cases s with
    | mk cs =>
      have hd : cs ≠ [] := by
        intro h
        subst h
        exact hne rfl
      show (⟨stripParensCore ('(' :: (cs ++ [')']))⟩ : String) = ⟨cs⟩
      rw [stripParensCore_wrap cs hd hlt]

/-- Witness for `contact_normalization_amended` at the spec's own
examples: the contact list joins to
`"https://example.com; a@example.com"` and `"(123-4567)"` strips to
`"123-4567"`. -/
theorem contact_normalization_amended_witness :
    (("123-4567" : String) ≠ "" ∧
      "123-4567".data.all (fun ch => !(isLineTerminator ch)) = true) ∧
    (normalizeContact (.arr (["https://example.com", "a@example.com"].map .str)) =
        .str (String.intercalate "; " ["https://example.com", "a@example.com"]) ∧
      stripOuterParens ("(" ++ "123-4567" ++ ")") = "123-4567" ∧
      normalizeContact .nul = .str "" ∧
      normalizeContact .undef = .undef) :=
  ⟨⟨by decide, by decide⟩,
    contact_normalization_amended ["https://example.com", "a@example.com"] "123-4567"
      (by decide) (by decide)⟩

/-- Claim C8: varying one configuration field at a time around a fully
valid base configuration, `#validateOptions` throws a `TypeError` exactly
on a kind mismatch and a `RangeError` exactly on an out-of-bounds value,
a malformed version, an over-long or "bot"-less name, or an over-long
contact; the numeric bounds are inclusive, with `requestTimeout` 500 and
30000 accepted but 499 and 30001 rejected, and `requestInterval` 500 and
5000 accepted but 499 and 5001 rejected. -/
theorem validation_error_taxonomy
    (v1 : JSValue) (n2 n3 n4 i5 i6 i7 : Int) (v8 : JSValue)
    (s9 s10 s11 s12 : String)
    (h1 : jsTypeof v1 ≠ "number")
    (h2 : n2 < 500) (h3 : 30000 < n3)
    (h4 : 500 ≤ n4) (h4' : n4 ≤ 30000)
    (h5 : i5 < 500) (h6 : 5000 < i6)
    (h7 : 500 ≤ i7) (h7' : i7 ≤ 5000)
    (h8 : jsTypeof v8 ≠ "string")
    (h9 : 256 < jsStrLength s9)
    (h10 : jsStrLength s10 ≤ 256) (h10' : jsIncludes (jsToLower s10) "bot" = false)
    (h11 : semverValid s11 = false)
    (h12 : 256 < jsStrLength s12) :
    validateOptions { okFields with requestTimeout := v1 } =
      .error (.typeError ("requestTimeout: Expected number; recieved " ++ jsTypeof v1)) ∧
    validateOptions { okFields with requestTimeout := .num (.int n2) } =
      .error (.rangeError "requestTimeout: Minimum is 500") ∧
    validateOptions { okFields with requestTimeout := .num (.int n3) } =
      .error (.rangeError "requestTimeout: Maximum is 30000") ∧
    validateOptions { okFields with requestTimeout := .num (.int n4) } = .ok () ∧
    validateOptions { okFields with requestInterval := .num (.int i5) } =
      .error (.rangeError "requestInterval: Minimum is 500") ∧
    validateOptions { okFields with requestInterval := .num (.int i6) } =
      .error (.rangeError "requestInterval: Maximum is 5000") ∧
    validateOptions { okFields with requestInterval := .num (.int i7) } = .ok () ∧
    validateOptions { okFields with name := v8 } =
      .error (.typeError ("userAgent.name: Expected string; recieved " ++ jsTypeof v8)) ∧
    validateOptions { okFields with name := .str s9 } =
      .error (.rangeError "userAgent.name: Maximum length is 256") ∧
    validateOptions { okFields with name := .str s10 } =
      .error (.rangeError "userAgent.name: Name must include the phrase 'bot'") ∧
    validateOptions { okFields with version := .str s11 } =
      .error (.rangeError "userAgent.version: Version must be a valid semver string") ∧
    validateOptions { okFields with contact := .str s12 } =
      .error (.rangeError "userAgent.contact: Maximum length is 256") ∧
    validateOptions { okFields with requestTimeout := .num (.int 500) } = .ok () ∧
    validateOptions { okFields with requestTimeout := .num (.int 30000) } = .ok () ∧
    validateOptions { okFields with requestTimeout := .num (.int 499) } =
      .error (.rangeError "requestTimeout: Minimum is 500") ∧
    validateOptions { okFields with requestTimeout := .num (.int 30001) } =
      .error (.rangeError "requestTimeout: Maximum is 30000") ∧
    validateOptions { okFields with requestInterval := .num (.int 500) } = .ok () ∧
    validateOptions { okFields with requestInterval := .num (.int 5000) } = .ok () ∧
    validateOptions { okFields with requestInterval := .num (.int 499) } =
      .error (.rangeError "requestInterval: Minimum is 500") ∧
    validateOptions { okFields with requestInterval := .num (.int 5001) } =
      .error (.rangeError "requestInterval: Maximum is 5000") := by
  refine ⟨?_, ?_, ?_, ?_, ?_, ?_, ?_, ?_, ?_, ?_, ?_, ?_,
    rfl, rfl, rfl, rfl, rfl, rfl, rfl, rfl⟩
  · simp only [validateOptions]
    rw [if_pos (by simp [bne_iff_ne, h1])]
  · simp only [validateOptions]
    rw [if_neg (by simp [jsTypeof]), if_pos (by simp [jsNumLt, h2])]
  · simp only [validateOptions]
    rw [if_neg (by simp [jsTypeof]), if_neg (by simp [jsNumLt]; omega),
        if_pos (by simp [jsNumGt, h3])]
  · simp only [validateOptions]
    rw [if_neg (by simp [jsTypeof]), if_neg (by simp [jsNumLt]; omega),
        if_neg (by simp [jsNumGt]; omega)]
    rfl
  · simp only [validateOptions]
    rw [if_neg (by decide), if_neg (by decide), if_neg (by decide),
        if_neg (by simp [jsTypeof]), if_pos (by simp [jsNumLt, h5])]
  · simp only [validateOptions]
    rw [if_neg (by decide), if_neg (by decide), if_neg (by decide),
        if_neg (by simp [jsTypeof]), if_neg (by simp [jsNumLt]; omega),
        if_pos (by simp [jsNumGt, h6])]
  · simp only [validateOptions]
    rw [if_neg (by decide), if_neg (by decide), if_neg (by decide),
        if_neg (by simp [jsTypeof]), if_neg (by simp [jsNumLt]; omega),
        if_neg (by simp [jsNumGt]; omega)]
    rfl
  · simp only [validateOptions]
    rw [if_neg (by decide), if_neg (by decide), if_neg (by decide), if_neg (by decide),
        if_neg (by decide), if_neg (by decide), if_pos (by simp [bne_iff_ne, h8])]
  · simp only [validateOptions]
    rw [if_neg (by decide), if_neg (by decide), if_neg (by decide), if_neg (by decide),
        if_neg (by decide), if_neg (by decide), if_neg (by simp [jsTypeof]),
        if_pos (show jsStrLength (jsStrVal (JSValue.str s9)) > 256 from h9)]
  · simp only [validateOptions]
    have h10n : s10.length ≤ 256 := h10
    rw [if_neg (by decide), if_neg (by decide), if_neg (by decide), if_neg (by decide),
        if_neg (by decide), if_neg (by decide), if_neg (by simp [jsTypeof]),
        if_neg (by simp [jsStrVal, jsStrLength]; omega),
        if_pos (by simp [jsStrVal, h10'])]
  · simp only [validateOptions]
    rw [if_neg (by decide), if_neg (by decide), if_neg (by decide), if_neg (by decide),
        if_neg (by decide), if_neg (by decide), if_neg (by decide), if_neg (by decide),
        if_neg (by decide), if_neg (by simp [jsTypeof]), if_pos (by simp [jsStrVal, h11])]
  · simp only [validateOptions]
    rw [if_neg (by decide), if_neg (by decide), if_neg (by decide), if_neg (by decide),
        if_neg (by decide), if_neg (by decide), if_neg (by decide), if_neg (by decide),
        if_neg (by decide), if_neg (by decide), if_neg (by decide),
        if_neg (by simp [jsTypeof]),
        if_pos (show jsStrLength (jsStrVal (JSValue.str s12)) > 256 from h12)]

set_option maxRecDepth 8192 in
/-- Witness for `validation_error_taxonomy` at concrete inputs: a string
where a number is expected, 499/30001/777 for `requestTimeout`,
1/9999/4000 for `requestInterval`, `NaN` where a string is expected, a
257-character name, the name `"alice"` (no "bot"), the version `"abc"`,
and a 257-character contact. -/
theorem validation_error_taxonomy_witness :
    (jsTypeof (.str "ten") ≠ "number" ∧
      (499 : Int) < 500 ∧ (30000 : Int) < 30001 ∧
      (500 : Int) ≤ 777 ∧ (777 : Int) ≤ 30000 ∧
      (1 : Int) < 500 ∧ (5000 : Int) < 9999 ∧
      (500 : Int) ≤ 4000 ∧ (4000 : Int) ≤ 5000 ∧
      jsTypeof (.num .nan) ≠ "string" ∧
      256 < jsStrLength ⟨List.replicate 257 'a'⟩ ∧
      jsStrLength "alice" ≤ 256 ∧ jsIncludes (jsToLower "alice") "bot" = false ∧
      semverValid "abc" = false ∧
      256 < jsStrLength ⟨List.replicate 257 'c'⟩) ∧
    (validateOptions { okFields with requestTimeout := .str "ten" } =
        .error (.typeError ("requestTimeout: Expected number; recieved " ++ jsTypeof (.str "ten"))) ∧
      validateOptions { okFields with requestTimeout := .num (.int 499) } =
        .error (.rangeError "requestTimeout: Minimum is 500") ∧
      validateOptions { okFields with requestTimeout := .num (.int 30001) } =
        .error (.rangeError "requestTimeout: Maximum is 30000") ∧
      validateOptions { okFields with requestTimeout := .num (.int 777) } = .ok () ∧
      validateOptions { okFields with requestInterval := .num (.int 1) } =
        .error (.rangeError "requestInterval: Minimum is 500") ∧
      validateOptions { okFields with requestInterval := .num (.int 9999) } =
        .error (.rangeError "requestInterval: Maximum is 5000") ∧
      validateOptions { okFields with requestInterval := .num (.int 4000) } = .ok () ∧
      validateOptions { okFields with name := .num .nan } =
        .error (.typeError ("userAgent.name: Expected string; recieved " ++ jsTypeof (.num .nan))) ∧
      validateOptions { okFields with name := .str ⟨List.replicate 257 'a'⟩ } =
        .error (.rangeError "userAgent.name: Maximum length is 256") ∧
      validateOptions { okFields with name := .str "alice" } =
        .error (.rangeError "userAgent.name: Name must include the phrase 'bot'") ∧
      validateOptions { okFields with version := .str "abc" } =
        .error (.rangeError "userAgent.version: Version must be a valid semver string") ∧
      validateOptions { okFields with contact := .str ⟨List.replicate 257 'c'⟩ } =
        .error (.rangeError "userAgent.contact: Maximum length is 256") ∧
      validateOptions { okFields with requestTimeout := .num (.int 500) } = .ok () ∧
      validateOptions { okFields with requestTimeout := .num (.int 30000) } = .ok () ∧
      validateOptions { okFields with requestTimeout := .num (.int 499) } =
        .error (.rangeError "requestTimeout: Minimum is 500") ∧
      validateOptions { okFields with requestTimeout := .num (.int 30001) } =
        .error (.rangeError "requestTimeout: Maximum is 30000") ∧
      validateOptions { okFields with requestInterval := .num (.int 500) } = .ok () ∧
      validateOptions { okFields with requestInterval := .num (.int 5000) } = .ok () ∧
      validateOptions { okFields with requestInterval := .num (.int 499) } =
        .error (.rangeError "requestInterval: Minimum is 500") ∧
      validateOptions { okFields with requestInterval := .num (.int 5001) } =
        .error (.rangeError "requestInterval: Maximum is 5000")) :=
  ⟨⟨by decide, by decide, by decide, by decide, by decide, by decide, by decide,
      by decide, by decide, by decide, by decide, by decide, by decide, by decide, by decide⟩,
    validation_error_taxonomy (.str "ten") 499 30001 777 1 9999 4000 (.num .nan)
      ⟨List.replicate 257 'a'⟩ "alice" "abc" ⟨List.replicate 257 'c'⟩
      (by decide) (by decide) (by decide) (by decide) (by decide) (by decide) (by decide)
      (by decide) (by decide) (by decide) (by decide) (by decide) (by decide) (by decide)
      (by decide)⟩

/-- Claim C9: the generated User-Agent string follows the spec's template
`"{name}/{version} ({contact}) {hostLibraryName}/{hostLibraryVersion}"`,
with the parenthesized contact segment omitted entirely when the
normalized contact is empty; in particular for name `"abot"`, version
`"1.0.0"` and a null contact (which normalizes to the empty string), the
output is exactly `"abot/1.0.0 " ++ pkgName ++ "/" ++ pkgVersion` —
no parenthesized segment, ending in the host library's own
name/version. -/
theorem user_agent_format (name version contact pkgName pkgVersion : String) :
    generateUserAgent name version contact pkgName pkgVersion =
      specUserAgentString name version contact pkgName pkgVersion ∧
    generateUserAgent "abot" "1.0.0" (jsStrVal (normalizeContact .nul)) pkgName pkgVersion =
      "abot/1.0.0 " ++ pkgName ++ "/" ++ pkgVersion := by
  constructor
  · by_cases h : contact = ""
    · subst h
      simp [generateUserAgent, specUserAgentString, String.append_empty]
    · simp [generateUserAgent, specUserAgentString, h]
  · rfl

end HololiveWiki
